import Mathlib

/-!
Verification model of the tcpchatserver repository (server-side I/O and
session engine).  The definitions below are shallow embeddings of the C++
sources under `src/server/`: the provided-buffer pool with reference
counting (`UringBuffer.cpp` and the older `BufferManager.cpp` variant),
the session registry (`SessionManager.cpp`), the frame codec and protocol
handlers (`IOUring.cpp`, `Session.cpp`, `EventHandler.cpp`), and the
7-byte operation context packed into the 8-byte submission `user_data`
(`IOUring::setContext` / `getContext`).

Machine integers are modelled as `Nat`/`Int` with explicit reduction
modulo `2^w` at the points where the C++ code can overflow.  Pool size
`NUM_IO_BUFFERS` (4096 in the source) is generalised to the length field
of the pool state; the C++ guard `idx >= NUM_IO_BUFFERS` always compares
against `buffers_.size() == NUM_IO_BUFFERS`, which the `size` field
mirrors.
-/

namespace TcpChat

/-- Mutable per-slot metadata, from `struct BufferInfo` in `UringBuffer.h`
(identical fields in `BufferManager.h`).  `allocation_time` is wall-clock
state with no bearing on any claim and is omitted. -/
structure BufferInfo where
  in_use : Bool
  client_fd : Nat
  bytes_used : Nat
  total_uses : Nat
  ref_count : Nat
  deriving Repr, DecidableEq, Inhabited

/-- State of one provided-buffer pool: the slot metadata vector
(`std::vector<BufferInfo> buffers_`, as its size plus contents) and the
`client_buffers_` map from client fd to slot index. -/
structure PoolState where
  size : Nat
  info : Nat → BufferInfo
  clientMap : Nat → Option Nat

/-- Operations the application code performs on a pool slot; the kernel
acquisition is `mark` (a recv completion reporting the picked slot). -/
inductive PoolOp where
  | mark (idx client_fd : Nat)
  | incRef (idx : Nat)
  | decRef (idx : Nat)
  | release (idx : Nat)
  deriving Repr, DecidableEq

/-- Whether a pool operation is the kernel acquisition of slot `idx`. -/
def PoolOp.marksSlot (idx : Nat) : PoolOp → Bool
  | .mark j _ => j == idx
  | _ => false

namespace UringBuffer

/-- Model of `UringBuffer::markBufferInUse` (`UringBuffer.cpp:101`): sets
`in_use`, records the owning client, bumps `total_uses` (a `uint64_t`),
and records the client-to-slot mapping.  Note: this variant does NOT
touch `ref_count`. -/
def markBufferInUse (s : PoolState) (idx client_fd : Nat) : PoolState :=
  if s.size ≤ idx then s else
    { s with
      info := fun j => if j = idx then
          { s.info idx with
            in_use := true
            client_fd := client_fd
            total_uses := ((s.info idx).total_uses + 1) % 2 ^ 64 }
        else s.info j
      clientMap := fun c => if c = client_fd then some idx else s.clientMap c }

/-- Model of `UringBuffer::releaseBuffer` (`UringBuffer.cpp:116`).
Returns the new state together with the list of slot indices re-published
to the kernel buffer ring by this call (`io_uring_buf_ring_add` +
`advance`); the list is empty when the call returns early. -/
def releaseBuffer (s : PoolState) (idx : Nat) : PoolState × List Nat :=
  if s.size ≤ idx then (s, []) else
  if (s.info idx).in_use = false then (s, []) else
  if 0 < (s.info idx).ref_count then (s, []) else
    ({ s with
       info := fun j => if j = idx then
           { s.info idx with in_use := false, client_fd := 0, bytes_used := 0 }
         else s.info j
       clientMap := fun c =>
         if c = (s.info idx).client_fd then none else s.clientMap c },
     [idx])

/-- Model of `UringBuffer::incrementRefCount` (`UringBuffer.cpp:190`);
`ref_count` is a `uint32_t`. -/
def incrementRefCount (s : PoolState) (idx : Nat) : PoolState :=
  if s.size ≤ idx then s else
    { s with
      info := fun j => if j = idx then
          { s.info idx with ref_count := ((s.info idx).ref_count + 1) % 2 ^ 32 }
        else s.info j }

/-- Model of `UringBuffer::decrementRefCount` (`UringBuffer.cpp:198`):
decrements only when positive; never touches the ring. -/
def decrementRefCount (s : PoolState) (idx : Nat) : PoolState :=
  if s.size ≤ idx then s else
  if 0 < (s.info idx).ref_count then
    { s with
      info := fun j => if j = idx then
          { s.info idx with ref_count := (s.info idx).ref_count - 1 }
        else s.info j }
  else s

/-- Model of `UringBuffer::isBufferInUse` (`UringBuffer.cpp:208`). -/
def isBufferInUse (s : PoolState) (idx : Nat) : Bool :=
  decide (idx < s.size) && (s.info idx).in_use

/-- Model of `UringBuffer::getBufferClient` (`UringBuffer.cpp:212`). -/
def getBufferClient (s : PoolState) (idx : Nat) : Nat :=
  if idx < s.size then (s.info idx).client_fd else 0

/-- Model of `UringBuffer::getBufferBytesUsed` (`UringBuffer.cpp:216`). -/
def getBufferBytesUsed (s : PoolState) (idx : Nat) : Nat :=
  if idx < s.size then (s.info idx).bytes_used else 0

/-- Model of `UringBuffer::getRefCount` (`UringBuffer.h:67`). -/
def getRefCount (s : PoolState) (idx : Nat) : Nat :=
  if idx < s.size then (s.info idx).ref_count else 0

/-- Model of `UringBuffer::findClientBuffer` (`UringBuffer.cpp:221`):
`UINT16_MAX` (65535) when the client owns no slot. -/
def findClientBuffer (s : PoolState) (client_fd : Nat) : Nat :=
  (s.clientMap client_fd).getD 65535

/-- One pool operation, with the list of ring re-publications it makes. -/
def step (s : PoolState) : PoolOp → PoolState × List Nat
  | .mark idx fd => (markBufferInUse s idx fd, [])
  | .incRef idx => (incrementRefCount s idx, [])
  | .decRef idx => (decrementRefCount s idx, [])
  | .release idx => releaseBuffer s idx

/-- A sequence of pool operations, accumulating ring re-publications. -/
def run (s : PoolState) : List PoolOp → PoolState × List Nat
  | [] => (s, [])
  | op :: ops =>
    let r1 := step s op
    let r2 := run r1.1 ops
    (r2.1, r1.2 ++ r2.2)

end UringBuffer

namespace BufferManager

/-- Model of `BufferManager::markBufferInUse` (`BufferManager.cpp:131`):
like the `UringBuffer` variant but additionally sets `ref_count := 1`. -/
def markBufferInUse (s : PoolState) (idx client_fd : Nat) : PoolState :=
  if s.size ≤ idx then s else
    { s with
      info := fun j => if j = idx then
          { s.info idx with
            in_use := true
            client_fd := client_fd
            total_uses := ((s.info idx).total_uses + 1) % 2 ^ 64
            ref_count := 1 }
        else s.info j
      clientMap := fun c => if c = client_fd then some idx else s.clientMap c }

/-- Model of `BufferManager::releaseBuffer` (`BufferManager.cpp:147`):
re-publishes to the ring only when `in_use` holds and `ref_count = 0`. -/
def releaseBuffer (s : PoolState) (idx : Nat) : PoolState × List Nat :=
  if s.size ≤ idx then (s, []) else
  if (s.info idx).in_use then
    if 0 < (s.info idx).ref_count then (s, []) else
      ({ s with
         info := fun j => if j = idx then
             { s.info idx with in_use := false, client_fd := 0, bytes_used := 0 }
           else s.info j
         clientMap := fun c =>
           if c = (s.info idx).client_fd then none else s.clientMap c },
       [idx])
  else (s, [])

/-- Model of `BufferManager::incrementRefCount` (`BufferManager.cpp:100`). -/
def incrementRefCount (s : PoolState) (idx : Nat) : PoolState :=
  if s.size ≤ idx then s else
    { s with
      info := fun j => if j = idx then
          { s.info idx with ref_count := ((s.info idx).ref_count + 1) % 2 ^ 32 }
        else s.info j }

/-- Model of `BufferManager::decrementRefCount` (`BufferManager.cpp:109`):
decrements when positive, and when the count reaches 0 on an in-use slot
it calls `releaseBuffer`, which re-publishes the slot to the ring. -/
def decrementRefCount (s : PoolState) (idx : Nat) : PoolState × List Nat :=
  if s.size ≤ idx then (s, []) else
  if 0 < (s.info idx).ref_count then
    let s1 : PoolState :=
      { s with
        info := fun j => if j = idx then
            { s.info idx with ref_count := (s.info idx).ref_count - 1 }
          else s.info j }
    if (s1.info idx).ref_count = 0 ∧ (s1.info idx).in_use then
      releaseBuffer s1 idx
    else (s1, [])
  else (s, [])

/-- Model of `BufferManager::getRefCount` (`BufferManager.cpp:124`). -/
def getRefCount (s : PoolState) (idx : Nat) : Nat :=
  if idx < s.size then (s.info idx).ref_count else 0

/-- Model of `BufferManager::isBufferInUse` (`BufferManager.cpp:213`). -/
def isBufferInUse (s : PoolState) (idx : Nat) : Bool :=
  decide (idx < s.size) && (s.info idx).in_use

/-- Model of `BufferManager::getBufferClient` (`BufferManager.cpp:217`). -/
def getBufferClient (s : PoolState) (idx : Nat) : Nat :=
  if idx < s.size then (s.info idx).client_fd else 0

/-- Model of `BufferManager::getBufferBytesUsed` (`BufferManager.cpp:221`). -/
def getBufferBytesUsed (s : PoolState) (idx : Nat) : Nat :=
  if idx < s.size then (s.info idx).bytes_used else 0

/-- Model of `BufferManager::findClientBuffer` (`BufferManager.cpp:236`). -/
def findClientBuffer (s : PoolState) (client_fd : Nat) : Nat :=
  (s.clientMap client_fd).getD 65535

/-- One pool operation in the `BufferManager` semantics. -/
def step (s : PoolState) : PoolOp → PoolState × List Nat
  | .mark idx fd => (markBufferInUse s idx fd, [])
  | .incRef idx => (incrementRefCount s idx, [])
  | .decRef idx => decrementRefCount s idx
  | .release idx => releaseBuffer s idx

/-- A sequence of pool operations in the `BufferManager` semantics. -/
def run (s : PoolState) : List PoolOp → PoolState × List Nat
  | [] => (s, [])
  | op :: ops =>
    let r1 := step s op
    let r2 := run r1.1 ops
    (r2.1, r1.2 ++ r2.2)

end BufferManager

/-! Session registry, from `SessionManager.cpp` and `Session.h`.  A
session's member set is a `std::set<int32_t>` (ascending, duplicate-free);
it is modelled as a sorted list of client fds.  The two directories
`sessions_` (session id to session) and `client_sessions_` (client fd to
session id) are modelled as association lists. -/

/-- Ordered-set insertion, the model of `clients_.insert(client_fd)`
(`Session.h`, `std::set::insert`). -/
def insertSorted (fd : Nat) : List Nat → List Nat
  | [] => [fd]
  | x :: xs =>
    if fd < x then fd :: x :: xs
    else if fd = x then x :: xs
    else x :: insertSorted fd xs

/-- Replace the value stored at key `k` of an association list, leaving
other entries alone (a `std::map` update at an existing key). -/
def updateA (k : Int) (f : List Nat → List Nat) :
    List (Int × List Nat) → List (Int × List Nat)
  | [] => []
  | (k', v) :: rest =>
    if k' = k then (k', f v) :: rest else (k', v) :: updateA k f rest

/-- Erase the entry at key `k` of an association list
(`sessions_.erase`). -/
def eraseA (k : Int) : List (Int × List Nat) → List (Int × List Nat)
  | [] => []
  | (k', v) :: rest =>
    if k' = k then rest else (k', v) :: eraseA k rest

/-- Erase the entry for client `fd` (`client_sessions_.erase`). -/
def eraseClientA (fd : Nat) : List (Nat × Int) → List (Nat × Int)
  | [] => []
  | (k', v) :: rest =>
    if k' = fd then rest else (k', v) :: eraseClientA fd rest

/-- Lookup in the session directory (`sessions_.find`). -/
def lookupSid : List (Int × List Nat) → Int → Option (List Nat)
  | [], _ => none
  | (k, v) :: rest, sid => if k = sid then some v else lookupSid rest sid

/-- Lookup in the client directory (`client_sessions_.find`). -/
def lookupFd : List (Nat × Int) → Nat → Option Int
  | [], _ => none
  | (k, v) :: rest, fd => if k = fd then some v else lookupFd rest fd

/-- Registry state: `sessions_` and `client_sessions_` of
`SessionManager`. -/
structure SMState where
  sessions : List (Int × List Nat)
  client_sessions : List (Nat × Int)
  deriving Repr, DecidableEq

namespace SessionManager

/-- Model of `SessionManager::joinSession` (`SessionManager.cpp:137`).
Returns the new state and `none` on success, or the original state
(the C++ code throws before mutating anything) together with the
exception message. -/
def joinSession (st : SMState) (client_fd : Nat) (session_id : Int) :
    SMState × Option String :=
  if (lookupFd st.client_sessions client_fd).isSome then
    (st, some "Client already in a session")
  else if (lookupSid st.sessions session_id).isSome then
    ({ sessions := updateA session_id (insertSorted client_fd) st.sessions
       client_sessions := (client_fd, session_id) :: st.client_sessions },
     none)
  else
    (st, some "Invalid session ID")

/-- Model of `SessionManager::removeSession` (`SessionManager.cpp:156`):
silently returns when the client is in no session; otherwise erases the
client from its session's member set, erases the session itself when it
becomes empty, and always erases the client-directory entry. -/
def removeSession (st : SMState) (client_fd : Nat) : SMState :=
  match lookupFd st.client_sessions client_fd with
  | none => st
  | some sid =>
    let sessions' :=
      match lookupSid st.sessions sid with
      | none => st.sessions
      | some members =>
        let members' := members.erase client_fd
        if members'.length = 0 then eraseA sid st.sessions
        else updateA sid (fun _ => members') st.sessions
    { sessions := sessions'
      client_sessions := eraseClientA client_fd st.client_sessions }

/-- Model of `SessionManager::getSessionClients` (`SessionManager.cpp:195`):
the member set of the session, or the empty set for an unknown id. -/
def getSessionClients (st : SMState) (session_id : Int) : List Nat :=
  (lookupSid st.sessions session_id).getD []

/-- Model of `SessionManager::getSession` (`SessionManager.cpp:179`),
reduced to the session id the returned `Session` object carries:
`none` models the `nullptr` return. -/
def getSession (st : SMState) (client_fd : Nat) : Option Int :=
  match lookupFd st.client_sessions client_fd with
  | none => none
  | some sid => if (lookupSid st.sessions sid).isSome then some sid else none

end SessionManager

/-- A registry mutation, for stating properties of every subsequent
operation sequence on the directory. -/
inductive RegOp where
  | join (fd : Nat) (sid : Int)
  | remove (fd : Nat)
  deriving Repr, DecidableEq

/-- Apply one registry mutation (join failures leave the state as is,
matching the C++ throw). -/
def applyReg (st : SMState) : RegOp → SMState
  | .join fd sid => (SessionManager.joinSession st fd sid).1
  | .remove fd => SessionManager.removeSession st fd

/-- Apply a sequence of registry mutations. -/
def applyRegs (st : SMState) : List RegOp → SMState
  | [] => st
  | op :: ops => applyRegs (applyReg st op) ops

/-! Frame codec and protocol handlers, from `Context.h`, `IOUring.cpp`
and `Session.cpp`.  Payload bytes are `Nat` values below 256. -/

/-- Tag bytes of `enum class MessageType` (`Context.h`). -/
def SERVER_ACK : Nat := 0x01

/-- Tag byte `SERVER_ERROR` (`Context.h`). -/
def SERVER_ERROR : Nat := 0x02

/-- Tag byte `SERVER_CHAT` (`Context.h`). -/
def SERVER_CHAT : Nat := 0x03

/-- Tag byte `SERVER_NOTIFICATION` (`Context.h`). -/
def SERVER_NOTIFICATION : Nat := 0x04

/-- Tag byte `CLIENT_JOIN` (`Context.h`). -/
def CLIENT_JOIN : Nat := 0x11

/-- Tag byte `CLIENT_LEAVE` (`Context.h`). -/
def CLIENT_LEAVE : Nat := 0x12

/-- Tag byte `CLIENT_CHAT` (`Context.h`). -/
def CLIENT_CHAT : Nat := 0x13

/-- `MAX_MESSAGE_SIZE` (`Context.h`). -/
def MAX_MESSAGE_SIZE : Nat := 4096

/-- The wire frame `struct ChatMessage` (`Context.h`): a tag byte, a
16-bit length, and a 512-byte payload area. -/
structure ChatMessage where
  type : Nat
  length : Nat
  data : List Nat
  deriving Repr, DecidableEq

/-- ASCII bytes of a string literal (payload strings built by the C++
handlers from `std::string` literals). -/
def ascii (s : String) : List Nat := s.data.map Char.toNat

/-- Decimal digits (ASCII, most significant last) of a positive number;
helper for the `std::to_string` model. -/
def natDigitsRev (n : Nat) : List Nat :=
  if n = 0 then [] else (48 + n % 10) :: natDigitsRev (n / 10)
  decreasing_by exact Nat.div_lt_self (Nat.pos_of_ne_zero (by assumption)) (by omega)

/-- ASCII decimal representation of a natural number. -/
def natAscii (n : Nat) : List Nat :=
  if n = 0 then [48] else (natDigitsRev n).reverse

/-- Model of `std::to_string` on a (32-bit) signed integer. -/
def intToAscii (i : Int) : List Nat :=
  if i < 0 then 45 :: natAscii i.natAbs else natAscii i.toNat

/-- Construction of the outgoing frame inside `IOUring::sendMessage`
(`IOUring.cpp:283`): zero-initialised record, tag, `uint16_t` length,
and `memcpy` of `min(length, 512)` payload bytes. -/
def mkChatMessage (ty : Nat) (payload : List Nat) (len : Nat) : ChatMessage :=
  { type := ty
    length := len % 2 ^ 16
    data := payload.take (min len 512) ++ List.replicate (512 - min len 512) 0 }

/-- Model of `IOUring::sendMessage` (`IOUring.cpp:283`).  When the
requested length exceeds the 512-byte payload area (and is nonzero, the
`data && length > 0` guard), the code decrements the buffer reference
once in the `if` and once more in the function's own `catch` before
rethrowing; the result is `none`.  Otherwise one `prepareWrite`
submission is issued, returned as a `(target fd, frame)` pair. -/
def sendMessage (pool : PoolState) (client_fd : Nat) (ty : Nat)
    (payload : List Nat) (len : Nat) (idx : Nat) :
    PoolState × Option (Nat × ChatMessage) :=
  if 0 < len ∧ 512 < len then
    (UringBuffer.decrementRefCount (UringBuffer.decrementRefCount pool idx) idx,
     none)
  else (pool, some (client_fd, mkChatMessage ty payload len))

/-- The per-recipient send loop of `IOUring::broadcastToSession`
(`IOUring.cpp:321`): one `sendMessage` per member; a throwing send is
caught and answered with one further reference decrement. -/
def sendLoop (pool : PoolState) (ty : Nat) (payload : List Nat) (len : Nat)
    (idx : Nat) : List Nat → PoolState × List (Nat × ChatMessage)
  | [] => (pool, [])
  | fd :: rest =>
    match sendMessage pool fd ty payload len idx with
    | (p, some s) =>
      let r := sendLoop p ty payload len idx rest
      (r.1, s :: r.2)
    | (p, none) =>
      sendLoop (UringBuffer.decrementRefCount p idx) ty payload len idx rest

/-- `n` successive `incrementRefCount` calls (the first loop of
`IOUring::broadcastToSession`, `IOUring.cpp:317`). -/
def incNTimes (pool : PoolState) (idx : Nat) : Nat → PoolState
  | 0 => pool
  | n + 1 => UringBuffer.incrementRefCount (incNTimes pool idx n) idx

/-- Model of `IOUring::broadcastToSession` (`IOUring.cpp:307`).  The
`exclude_fd` parameter is present in the signature but unused by the
body (its name is commented out in the source).  Returns the new pool
state and the list of send submissions in issue order. -/
def broadcastToSession (sm : SMState) (pool : PoolState) (session_id : Int)
    (ty : Nat) (payload : List Nat) (len : Nat) (idx : Nat)
    (exclude_fd : Int) : PoolState × List (Nat × ChatMessage) :=
  let clients := SessionManager.getSessionClients sm session_id
  if clients = [] then (UringBuffer.decrementRefCount pool idx, [])
  else sendLoop (incNTimes pool idx clients.length) ty payload len idx clients

/-- The byte filter of `IOUring::handleChatMessage` (`IOUring.cpp:257`).
`char` is signed, so a byte `b ≥ 128` is the negative value `b - 256`;
the comparisons `c >= 32 && c <= 126`, `c == '\n' | '\r' | '\t'` are on
that signed value, and the final disjunct casts back to
`unsigned char`. -/
def keepChatByte (b : Nat) : Bool :=
  let c : Int := if b < 128 then (b : Int) else (b : Int) - 256
  decide ((32 ≤ c ∧ c ≤ 126) ∨ c = 10 ∨ c = 13 ∨ c = 9 ∨ 128 ≤ b)

/-- The sanitising loop of `IOUring::handleChatMessage`: the kept bytes
of the first `length` payload bytes, in order. -/
def sanitizeChat (msg : ChatMessage) : List Nat :=
  (msg.data.take msg.length).filter keepChatByte

/-- Model of `IOUring::handleChatMessage` (`IOUring.cpp:240`): drops the
frame (one reference decrement, no sends) when the client is in no
session, the length is 0 or exceeds `MAX_MESSAGE_SIZE`, the sanitised
payload is empty, or the member list is empty; otherwise broadcasts the
sanitised payload as `SERVER_CHAT` (passing the sender fd as the unused
`exclude_fd`). -/
def handleChatMessage (sm : SMState) (pool : PoolState) (client_fd : Nat)
    (msg : ChatMessage) (idx : Nat) : PoolState × List (Nat × ChatMessage) :=
  match SessionManager.getSession sm client_fd with
  | none => (UringBuffer.decrementRefCount pool idx, [])
  | some sid =>
    if sid < 0 then (UringBuffer.decrementRefCount pool idx, [])
    else if msg.length = 0 ∨ MAX_MESSAGE_SIZE < msg.length then
      (UringBuffer.decrementRefCount pool idx, [])
    else
      let filtered := sanitizeChat msg
      if filtered = [] then (UringBuffer.decrementRefCount pool idx, [])
      else if SessionManager.getSessionClients sm sid = [] then
        (UringBuffer.decrementRefCount pool idx, [])
      else
        broadcastToSession sm pool sid SERVER_CHAT filtered filtered.length idx
          (client_fd : Int)

/-- Reassembly of a 32-bit two's-complement value from its bit pattern
(reading an `int32_t` from 4 little-endian bytes). -/
def natToInt32 (u : Nat) : Int :=
  if u % 2 ^ 32 < 2 ^ 31 then ((u % 2 ^ 32 : Nat) : Int)
  else ((u % 2 ^ 32 : Nat) : Int) - 2 ^ 32

/-- 32-bit two's-complement bit pattern of an `int32_t` value. -/
def int32ToNat (i : Int) : Nat := (i % 2 ^ 32).toNat

/-- The `int32_t` session id read from the first four payload bytes of a
JOIN frame (`IOUring::handleJoinSession`, `IOUring.cpp:211`). -/
def readSessionId (data : List Nat) : Int :=
  natToInt32 (data.getD 0 0 + 2 ^ 8 * data.getD 1 0 + 2 ^ 16 * data.getD 2 0 +
    2 ^ 24 * data.getD 3 0)

/-- The ACK payload built on a successful join
(`"Successfully joined session " + std::to_string(session_id)`,
`IOUring.cpp:219`). -/
def joinAckPayload (session_id : Int) : List Nat :=
  ascii "Successfully joined session " ++ intToAscii session_id

/-- The NOTIFICATION payload built by `Session::addClient`
(`"joined session:" + std::to_string(session_id_)`, `Session.cpp:87`). -/
def joinNotifPayload (session_id : Int) : List Nat :=
  ascii "joined session:" ++ intToAscii session_id

/-- The ERROR payload built on a failed join
(`"Failed to join session: " + e.what()`, `IOUring.cpp:226`). -/
def joinErrorPayload (e : String) : List Nat :=
  ascii "Failed to join session: " ++ ascii e

/-- The send issued by `Session::addClient` (`Session.cpp:85`) right
after a client enters the session: a `SERVER_NOTIFICATION` frame carrying
`joined session:<id>` (sent on the session's own ring with buffer index
0; the payload never exceeds 512 bytes, so its `sendMessage` never takes
the throwing branch). -/
def addClientNotif (session_id : Int) (client_fd : Nat) : Nat × ChatMessage :=
  (client_fd,
   mkChatMessage SERVER_NOTIFICATION (joinNotifPayload session_id)
     (joinNotifPayload session_id).length)

/-- Model of `IOUring::handleJoinSession` (`IOUring.cpp:202`): frames
shorter than 4 payload bytes release the buffer and produce nothing; a
successful `joinSession` triggers the `addClient` NOTIFICATION followed
by the ACK; a failed one produces the ERROR frame.  Returns the new
registry state, pool state, and sends in issue order. -/
def handleJoinSession (sm : SMState) (pool : PoolState) (client_fd : Nat)
    (msg : ChatMessage) (idx : Nat) :
    SMState × PoolState × List (Nat × ChatMessage) :=
  if msg.length < 4 then (sm, (UringBuffer.releaseBuffer pool idx).1, [])
  else
    let sid := readSessionId msg.data
    match SessionManager.joinSession sm client_fd sid with
    | (sm', none) =>
      let r := sendMessage pool client_fd SERVER_ACK (joinAckPayload sid)
        (joinAckPayload sid).length idx
      (sm', r.1, addClientNotif sid client_fd :: r.2.toList)
    | (sm', some e) =>
      let r := sendMessage pool client_fd SERVER_ERROR (joinErrorPayload e)
        (joinErrorPayload e).length idx
      (sm', r.1, r.2.toList)

/-- Outcome of the validation and dispatch performed on a received frame
by `IOUring::handleRead` (`IOUring.cpp:141`) and
`IOUring::processMessage` (`IOUring.cpp:181`). -/
inductive ReadAction where
  | rejectInvalidType
  | rejectTooLong
  | rejectEmpty
  | dispatchJoin
  | dispatchLeave
  | dispatchChat
  | rejectUnknown
  deriving Repr, DecidableEq

/-- Model of the frame validation in `IOUring::handleRead`
(`IOUring.cpp:148`): tag outside `0x10..0x14`, declared length above
512, or declared length equal to 0 all release the buffer without
dispatch; only then is `processMessage` reached, whose switch dispatches
JOIN, LEAVE and CHAT and releases the buffer for the remaining tags. -/
def handleReadValidate (msg : ChatMessage) : ReadAction :=
  if msg.type < 0x10 ∨ 0x14 < msg.type then .rejectInvalidType
  else if 512 < msg.length then .rejectTooLong
  else if msg.length = 0 then .rejectEmpty
  else if msg.type = CLIENT_JOIN then .dispatchJoin
  else if msg.type = CLIENT_LEAVE then .dispatchLeave
  else if msg.type = CLIENT_CHAT then .dispatchChat
  else .rejectUnknown

/-- The LEAVE frame in the wire format the spec prescribes (and that
`ChatClient::leaveSession` emits): tag `0x12`, empty payload. -/
def leaveFrame : ChatMessage :=
  { type := CLIENT_LEAVE, length := 0, data := List.replicate 512 0 }

/-! Operation context, from `IOUring::setContext` (`IOUring.cpp:54`) and
the `getContext` decoders (`Session.cpp:7`, `Listener.cpp`,
`main.cpp`).  The 8-byte `user_data` is modelled as its list of bytes;
`setContext` writes bytes 0..6 and leaves byte 7 at its prior value. -/

/-- The submission-side operation tags, `enum class OperationType`
(`Context.h`). -/
inductive OperationType where
  | ACCEPT
  | READ
  | WRITE
  | CLOSE
  deriving Repr, DecidableEq

/-- Byte value of an operation tag (`Context.h`: ACCEPT = 1, READ = 2,
WRITE = 3, CLOSE = 4). -/
def OperationType.toByte : OperationType → Nat
  | .ACCEPT => 1
  | .READ => 2
  | .WRITE => 3
  | .CLOSE => 4

/-- The decoded `struct Operation` (`Context.h`); `op_byte` is the raw
tag byte as read by `getContext`, which performs no validation. -/
structure Operation where
  client_fd : Int
  op_byte : Nat
  buffer_idx : Nat
  deriving Repr, DecidableEq

/-- Model of `IOUring::setContext` (`IOUring.cpp:54`): writes the client
fd as a little-endian `int32_t` into bytes 0..3, the operation tag into
byte 4, and the buffer index as a little-endian `uint16_t` into bytes
5..6 of the 8-byte `user_data`; byte 7 keeps its prior value. -/
def setContext (prior : List Nat) (ty : OperationType) (client_fd : Int)
    (buffer_idx : Nat) : List Nat :=
  let u := int32ToNat client_fd
  [u % 2 ^ 8, u / 2 ^ 8 % 2 ^ 8, u / 2 ^ 16 % 2 ^ 8, u / 2 ^ 24 % 2 ^ 8,
   ty.toByte, buffer_idx % 2 ^ 8, buffer_idx / 2 ^ 8 % 2 ^ 8,
   prior.getD 7 0]

/-- Model of `getContext` (`Session.cpp:7`): reads the `int32_t` client
fd from bytes 0..3, the tag byte from byte 4, and the `uint16_t` buffer
index from bytes 5..6. -/
def getContext (bytes : List Nat) : Operation :=
  { client_fd := natToInt32 (bytes.getD 0 0 + 2 ^ 8 * bytes.getD 1 0 +
      2 ^ 16 * bytes.getD 2 0 + 2 ^ 24 * bytes.getD 3 0)
    op_byte := bytes.getD 4 0
    buffer_idx := bytes.getD 5 0 + 2 ^ 8 * bytes.getD 6 0 }

/-- The dispatch switch of `Session::processEvent` (`Session.cpp:35`)
keyed on the decoded operation tag: the four known byte values select
their operation; every other byte falls into the rejecting default
case. -/
def dispatchOpByte (b : Nat) : Option OperationType :=
  if b = 1 then some .ACCEPT
  else if b = 2 then some .READ
  else if b = 3 then some .WRITE
  else if b = 4 then some .CLOSE
  else none

/-! Concrete states used by the example-level theorems below. -/

/-- A one-slot pool whose slot is idle (fresh after `initBufferRing`). -/
def freshPool : PoolState :=
  { size := 1, info := fun _ => default, clientMap := fun _ => none }

/-- A one-slot pool whose slot 0 the kernel has just handed to client 1
(the state after `UringBuffer::markBufferInUse 0 1`). -/
def livePool : PoolState :=
  { size := 1
    info := fun _ =>
      { in_use := true, client_fd := 1, bytes_used := 5, total_uses := 1,
        ref_count := 0 }
    clientMap := fun c => if c = 1 then some 0 else none }

/-- A registry with one session (id 0) whose members are clients 1 and 2. -/
def twoClientReg : SMState :=
  { sessions := [(0, [1, 2])], client_sessions := [(1, 0), (2, 0)] }

/-- A registry with one known, empty session of id 0 and no clients. -/
def emptyReg : SMState := { sessions := [(0, [])], client_sessions := [] }

/-- A CHAT frame from the sanitisation scenario of the spec: payload
bytes `"a\x01b\x02c"`, declared length 5. -/
def chatExample : ChatMessage :=
  { type := CLIENT_CHAT, length := 5
    data := [97, 1, 98, 2, 99] ++ List.replicate 507 0 }

/-- A CHAT frame with payload `"hi"`, declared length 2. -/
def chatHi : ChatMessage :=
  { type := CLIENT_CHAT, length := 2
    data := [104, 105] ++ List.replicate 510 0 }

/-- A JOIN frame naming session 0 (4 little-endian zero bytes). -/
def joinZero : ChatMessage :=
  { type := CLIENT_JOIN, length := 4, data := List.replicate 512 0 }

/-- A registry where client 1 is the sole member of session 0, and a
second session (id 1) is known and empty. -/
def pairReg : SMState :=
  { sessions := [(0, [1]), (1, [])], client_sessions := [(1, 0)] }

/-- A registry with client 1 alone in session 0 and client 2 alone in
session 5. -/
def triReg : SMState :=
  { sessions := [(0, [1]), (5, [2])], client_sessions := [(1, 0), (2, 5)] }

/-! Theorems. -/

/-- Looking up the updated key of `updateA` finds the transformed
value. -/
theorem lookup_updateA (l : List (Int × List Nat)) (k : Int)
    (f : List Nat → List Nat) :
    lookupSid (updateA k f l) k = (lookupSid l k).map f := by
  induction l with
  | nil => rfl
  | cons p rest ih =>
    obtain ⟨k', v⟩ := p
    by_cases h : k' = k
    · subst h
      simp [updateA, lookupSid]
    · simp [updateA, lookupSid, h, ih]

/-- `updateA` introduces no key: an absent key stays absent. -/
theorem lookup_updateA_none (l : List (Int × List Nat)) (k sid : Int)
    (f : List Nat → List Nat) (h : lookupSid l sid = none) :
    lookupSid (updateA k f l) sid = none := by
  induction l with
  | nil => rfl
  | cons p rest ih =>
    obtain ⟨k', v⟩ := p
    by_cases hk : k' = k
    · subst hk
      by_cases hs : k' = sid
      · simp [lookupSid, hs] at h
      · simp [lookupSid, hs] at h
        simp [updateA, lookupSid, hs]
        exact h
    · by_cases hs : k' = sid
      · simp [lookupSid, hs] at h
      · simp [lookupSid, hs] at h
        simp [updateA, hk, lookupSid, hs]
        exact ih h

/-- `eraseA` introduces no key: an absent key stays absent. -/
theorem lookup_eraseA_none (l : List (Int × List Nat)) (k sid : Int)
    (h : lookupSid l sid = none) :
    lookupSid (eraseA k l) sid = none := by
  induction l with
  | nil => rfl
  | cons p rest ih =>
    obtain ⟨k', v⟩ := p
    by_cases hk : k' = k
    · subst hk
      by_cases hs : k' = sid
      · simp [lookupSid, hs] at h
      · simp [lookupSid, hs] at h
        simp [eraseA]
        exact h
    · by_cases hs : k' = sid
      · simp [lookupSid, hs] at h
      · simp [lookupSid, hs] at h
        simp [eraseA, hk, lookupSid, hs]
        exact ih h

/-- A key heading no entry of an association list has no lookup
result. -/
theorem lookupSid_eq_none (l : List (Int × List Nat)) (sid : Int)
    (h : ∀ p ∈ l, p.1 ≠ sid) :
    lookupSid l sid = none := by
  induction l with
  | nil => rfl
  | cons p rest ih =>
    obtain ⟨k', v⟩ := p
    simp [lookupSid, h (k', v) (by simp)]
    exact ih (fun q hq => h q (by simp [hq]))

/-- Erasing a key of a duplicate-free association list removes it from
lookup. -/
theorem lookup_eraseA_self (l : List (Int × List Nat)) (sid : Int)
    (h : (l.map Prod.fst).Nodup) :
    lookupSid (eraseA sid l) sid = none := by
  induction l with
  | nil => rfl
  | cons p rest ih =>
    obtain ⟨k', v⟩ := p
    rw [List.map_cons, List.nodup_cons] at h
    by_cases hs : k' = sid
    · subst hs
      simp [eraseA]
      refine lookupSid_eq_none rest k' (fun q hq hqe => ?_)
      have hmem : q.1 ∈ rest.map Prod.fst := List.mem_map_of_mem Prod.fst hq
      exact h.1 (hqe ▸ hmem)
    · simp [eraseA, hs, lookupSid]
      exact ih h.2

/-- A client heading no entry of the client directory has no lookup
result. -/
theorem lookupFd_eq_none (l : List (Nat × Int)) (fd : Nat)
    (h : ∀ p ∈ l, p.1 ≠ fd) :
    lookupFd l fd = none := by
  induction l with
  | nil => rfl
  | cons p rest ih =>
    obtain ⟨k', v⟩ := p
    simp [lookupFd, h (k', v) (by simp)]
    exact ih (fun q hq => h q (by simp [hq]))

/-- Erasing a client of a duplicate-free client directory removes it
from lookup. -/
theorem lookup_eraseClientA_self (l : List (Nat × Int)) (fd : Nat)
    (h : (l.map Prod.fst).Nodup) :
    lookupFd (eraseClientA fd l) fd = none := by
  induction l with
  | nil => rfl
  | cons p rest ih =>
    obtain ⟨k', v⟩ := p
    rw [List.map_cons, List.nodup_cons] at h
    by_cases hs : k' = fd
    · subst hs
      simp [eraseClientA]
      refine lookupFd_eq_none rest k' (fun q hq hqe => ?_)
      have hmem : q.1 ∈ rest.map Prod.fst := List.mem_map_of_mem Prod.fst hq
      exact h.1 (hqe ▸ hmem)
    · simp [eraseClientA, hs, lookupFd]
      exact ih h.2

/-- The inserted element is a member of the ordered-set insertion. -/
theorem mem_insertSorted_self (fd : Nat) (l : List Nat) :
    fd ∈ insertSorted fd l := by
  induction l with
  | nil => simp [insertSorted]
  | cons x xs ih =>
    by_cases h1 : fd < x
    · simp [insertSorted, h1]
    · by_cases h2 : fd = x
      · simp [insertSorted, h1, h2]
      · simp [insertSorted, h1, h2]
        exact ih

/-- A join at an unknown session id fails (with the unknown-session
message when the client is free) and leaves the registry unchanged. -/
theorem joinSession_unknown_sid (st : SMState) (fd : Nat) (sid : Int)
    (h : lookupSid st.sessions sid = none) :
    (SessionManager.joinSession st fd sid).1 = st ∧
    ((SessionManager.joinSession st fd sid).2).isSome = true ∧
    (lookupFd st.client_sessions fd = none →
      (SessionManager.joinSession st fd sid).2 = some "Invalid session ID") := by
  unfold SessionManager.joinSession
  by_cases hc : (lookupFd st.client_sessions fd).isSome
  · refine ⟨by simp [hc], by simp [hc], ?_⟩
    intro hn
    rw [hn] at hc
    simp at hc
  · simp [hc, h]

/-- Neither a join nor a remove ever creates a session: an id absent
from the session directory stays absent. -/
theorem sessions_lookup_none_applyReg (st : SMState) (op : RegOp) (sid : Int)
    (h : lookupSid st.sessions sid = none) :
    lookupSid (applyReg st op).sessions sid = none := by
  cases op with
  | join fd sid2 =>
    unfold applyReg SessionManager.joinSession
    by_cases hc : (lookupFd st.client_sessions fd).isSome
    · simpa [hc] using h
    · by_cases hs : (lookupSid st.sessions sid2).isSome
      · simpa [hc, hs] using lookup_updateA_none _ _ _ _ h
      · simpa [hc, hs] using h
  | remove fd =>
    unfold applyReg SessionManager.removeSession
    cases hc : lookupFd st.client_sessions fd with
    | none => simpa [hc] using h
    | some sid2 =>
      cases hm : lookupSid st.sessions sid2 with
      | none => simpa [hc, hm] using h
      | some members =>
        by_cases he : (members.erase fd).length = 0
        · simpa [hc, hm, he] using lookup_eraseA_none _ _ _ h
        · simpa [hc, hm, he] using lookup_updateA_none _ _ _ _ h

/-- An id absent from the session directory stays absent under any
sequence of joins and removes. -/
theorem sessions_lookup_none_applyRegs (ops : List RegOp) (st : SMState)
    (sid : Int) (h : lookupSid st.sessions sid = none) :
    lookupSid (applyRegs st ops).sessions sid = none := by
  induction ops generalizing st with
  | nil => exact h
  | cons op rest ih =>
    exact ih _ (sessions_lookup_none_applyReg st op sid h)

/-- Claim C3, counterexample: client 1 is a member of session 0, and
session 1 is known; `joinSession` neither moves the client to session 1
nor no-op-succeeds at its current session 0 — in both cases it throws
`Client already in a session` and leaves the registry as it was. -/
theorem claim_C3_counterexample :
    SessionManager.joinSession pairReg 1 1
      = (pairReg, some "Client already in a session") ∧
    SessionManager.joinSession pairReg 1 0
      = (pairReg, some "Client already in a session") := by
  constructor
  · rfl
  · rfl

/-- Claim C3, amended: `joinSession` fails with `Client already in a
session` (leaving every member set unchanged) whenever the client is
already in a session — including a JOIN naming its current session —
fails with `Invalid session ID` for a free client and an unknown id,
and succeeds exactly for a free client and a known id, adding the
client to that session's member set and directory entry. -/
theorem claim_C3_join_only_free_clients :
    (∀ (st : SMState) (fd : Nat) (sid s0 : Int),
      lookupFd st.client_sessions fd = some s0 →
      SessionManager.joinSession st fd sid
        = (st, some "Client already in a session")) ∧
    (∀ (st : SMState) (fd : Nat) (sid : Int),
      lookupFd st.client_sessions fd = none →
      lookupSid st.sessions sid = none →
      SessionManager.joinSession st fd sid
        = (st, some "Invalid session ID")) ∧
    (∀ (st : SMState) (fd : Nat) (sid : Int),
      lookupFd st.client_sessions fd = none →
      (lookupSid st.sessions sid).isSome = true →
      (SessionManager.joinSession st fd sid).2 = none ∧
      fd ∈ SessionManager.getSessionClients
        (SessionManager.joinSession st fd sid).1 sid ∧
      lookupFd (SessionManager.joinSession st fd sid).1.client_sessions fd
        = some sid) := by
  refine ⟨?_, ?_, ?_⟩
  · intro st fd sid s0 h
    simp [SessionManager.joinSession, h]
  · intro st fd sid h1 h2
    simp [SessionManager.joinSession, h1, h2]
  · intro st fd sid h1 h2
    obtain ⟨members, hm⟩ := Option.isSome_iff_exists.1 h2
    refine ⟨?_, ?_, ?_⟩
    · simp [SessionManager.joinSession, h1, h2]
    · simp [SessionManager.joinSession, h1, h2,
        SessionManager.getSessionClients, lookup_updateA, hm]
      exact mem_insertSorted_self fd members
    · simp [SessionManager.joinSession, h1, h2, lookupFd]

/-- Claim C3, witness: the amended theorem evaluated on the registry
with client 1 in session 0 (failure case) and on the empty registry
(success case, client 7 joining session 0). -/
theorem claim_C3_join_only_free_clients_witness :
    SessionManager.joinSession pairReg 1 1
      = (pairReg, some "Client already in a session") ∧
    (SessionManager.joinSession emptyReg 7 0).2 = none ∧
    7 ∈ SessionManager.getSessionClients
      (SessionManager.joinSession emptyReg 7 0).1 0 :=
  ⟨claim_C3_join_only_free_clients.1 pairReg 1 1 0 rfl,
   (claim_C3_join_only_free_clients.2.2 emptyReg 7 0 rfl rfl).1,
   (claim_C3_join_only_free_clients.2.2 emptyReg 7 0 rfl rfl).2.1⟩

/-- Claim C10, counterexample: after client 1 (the last member of
session 0) is removed, session 0 is erased; but the subsequent
`joinSession` of client 2 — who sits in session 5 — naming the dead id
0 fails with `Client already in a session`, not with the
unknown-session error the claim asserts for every subsequent join. -/
theorem claim_C10_counterexample :
    lookupSid (SessionManager.removeSession triReg 1).sessions 0 = none ∧
    (SessionManager.joinSession (SessionManager.removeSession triReg 1) 2 0).2
      = some "Client already in a session" ∧
    (SessionManager.joinSession (SessionManager.removeSession triReg 1) 2 0).2
      ≠ some "Invalid session ID" := by
  refine ⟨rfl, rfl, ?_⟩
  decide

/-- Claim C10, amended: removing the last member of a session erases the
session from the directory; under every subsequent sequence of joins
and removes the id stays unknown, so every join naming it fails and
leaves the registry unchanged — with the unknown-session error when the
joining client is in no session (a client already in a session fails
earlier with the already-in-session error) — and removing the client a
second time is a no-op. -/
theorem claim_C10_last_member_erases_session (st : SMState) (fd : Nat)
    (sid : Int)
    (hs : (st.sessions.map Prod.fst).Nodup)
    (hc : (st.client_sessions.map Prod.fst).Nodup)
    (h1 : lookupFd st.client_sessions fd = some sid)
    (h2 : SessionManager.getSessionClients st sid = [fd]) :
    lookupSid (SessionManager.removeSession st fd).sessions sid = none ∧
    (∀ (ops : List RegOp) (fd2 : Nat),
      (SessionManager.joinSession
          (applyRegs (SessionManager.removeSession st fd) ops) fd2 sid).1
        = applyRegs (SessionManager.removeSession st fd) ops ∧
      ((SessionManager.joinSession
          (applyRegs (SessionManager.removeSession st fd) ops) fd2 sid).2).isSome
        = true ∧
      (lookupFd (applyRegs (SessionManager.removeSession st fd)
            ops).client_sessions fd2 = none →
        (SessionManager.joinSession
            (applyRegs (SessionManager.removeSession st fd) ops) fd2 sid).2
          = some "Invalid session ID")) ∧
    SessionManager.removeSession (SessionManager.removeSession st fd) fd
      = SessionManager.removeSession st fd := by
  have hmem : lookupSid st.sessions sid = some [fd] := by
    unfold SessionManager.getSessionClients at h2
    cases hl : lookupSid st.sessions sid with
    | none => rw [hl] at h2; simp at h2
    | some m => rw [hl] at h2; simp at h2; rw [h2]
  have hrm : SessionManager.removeSession st fd
      = { sessions := eraseA sid st.sessions
          client_sessions := eraseClientA fd st.client_sessions } := by
    unfold SessionManager.removeSession
    simp [h1, hmem]
  have hnone : lookupSid (SessionManager.removeSession st fd).sessions sid
      = none := by
    rw [hrm]
    exact lookup_eraseA_self st.sessions sid hs
  refine ⟨hnone, ?_, ?_⟩
  · intro ops fd2
    exact joinSession_unknown_sid _ fd2 sid
      (sessions_lookup_none_applyRegs ops _ sid hnone)
  · have hcl : lookupFd (eraseClientA fd st.client_sessions) fd = none :=
      lookup_eraseClientA_self st.client_sessions fd hc
    rw [hrm]
    unfold SessionManager.removeSession
    simp [hcl]

/-- Publications of the `UringBuffer` semantics happen only from a slot
whose `in_use` flag was set, and leave it cleared with `ref_count` 0. -/
theorem stepU_pub_sound (s : PoolState) (op : PoolOp) (idx : Nat)
    (h : idx ∈ (UringBuffer.step s op).2) :
    (s.info idx).in_use = true ∧
    (((UringBuffer.step s op).1).info idx).ref_count = 0 ∧
    (((UringBuffer.step s op).1).info idx).in_use = false := by
  cases op with
  | mark j fd => simp [UringBuffer.step] at h
  | incRef j => simp [UringBuffer.step] at h
  | decRef j => simp [UringBuffer.step] at h
  | release j =>
    simp only [UringBuffer.step] at h ⊢
    unfold UringBuffer.releaseBuffer at h ⊢
    split_ifs at h with h1 h2 h3
    · simp at h
    · simp at h
    · simp at h
    · rw [List.mem_singleton] at h
      subst h
      simp at h2
      refine ⟨h2, ?_, ?_⟩
      · simp [h1, h2, h3]
        omega
      · simp [h1, h2, h3]

/-- Each `UringBuffer` operation publishes at most one slot. -/
theorem stepU_count_le_one (s : PoolState) (op : PoolOp) (idx : Nat) :
    ((UringBuffer.step s op).2.count idx) ≤ 1 := by
  cases op with
  | mark j fd => simp [UringBuffer.step]
  | incRef j => simp [UringBuffer.step]
  | decRef j => simp [UringBuffer.step]
  | release j =>
    simp only [UringBuffer.step]
    unfold UringBuffer.releaseBuffer
    split_ifs <;> simp [List.count_singleton'] <;> split <;> simp

/-- No `UringBuffer` operation except a kernel acquisition of the slot
sets its `in_use` flag. -/
theorem stepU_preserves_not_inuse (s : PoolState) (op : PoolOp) (idx : Nat)
    (h : (s.info idx).in_use = false) (hm : op.marksSlot idx = false) :
    (((UringBuffer.step s op).1).info idx).in_use = false := by
  cases op with
  | mark j fd =>
    have hj : ¬ j = idx := by simpa [PoolOp.marksSlot] using hm
    have hj' : ¬ idx = j := fun hh => hj hh.symm
    simp only [UringBuffer.step]
    unfold UringBuffer.markBufferInUse
    split_ifs
    · exact h
    · simpa [hj'] using h
  | incRef j =>
    simp only [UringBuffer.step]
    unfold UringBuffer.incrementRefCount
    split_ifs
    · exact h
    · by_cases hj : idx = j
      · subst hj
        simpa using h
      · simpa [hj] using h
  | decRef j =>
    simp only [UringBuffer.step]
    unfold UringBuffer.decrementRefCount
    split_ifs
    · exact h
    · by_cases hj : idx = j
      · subst hj
        simpa using h
      · simpa [hj] using h
    · exact h
  | release j =>
    simp only [UringBuffer.step]
    unfold UringBuffer.releaseBuffer
    split_ifs
    · exact h
    · exact h
    · exact h
    · by_cases hj : idx = j
      · simp [hj]
      · simpa [hj] using h

/-- A slot whose `in_use` flag is clear is never published by a
mark-free `UringBuffer` operation sequence. -/
theorem runU_no_pub_of_not_inuse (ops : List PoolOp) (s : PoolState)
    (idx : Nat) (h : (s.info idx).in_use = false)
    (hm : ∀ op ∈ ops, op.marksSlot idx = false) :
    ((UringBuffer.run s ops).2.count idx) = 0 := by
  induction ops generalizing s with
  | nil => simp [UringBuffer.run]
  | cons op rest ih =>
    simp only [UringBuffer.run, List.count_append]
    have hop := hm op (by simp)
    have h1 : ((UringBuffer.step s op).2.count idx) = 0 := by
      rw [List.count_eq_zero]
      intro hmem
      rw [(stepU_pub_sound s op idx hmem).1] at h
      exact Bool.true_eq_false.mp h
    have h2 := ih ((UringBuffer.step s op).1)
      (stepU_preserves_not_inuse s op idx h hop)
      (fun o ho => hm o (by simp [ho]))
    omega

/-- In a mark-free `UringBuffer` operation sequence a slot is published
at most once. -/
theorem runU_count_le_one (ops : List PoolOp) (s : PoolState) (idx : Nat)
    (hm : ∀ op ∈ ops, op.marksSlot idx = false) :
    ((UringBuffer.run s ops).2.count idx) ≤ 1 := by
  induction ops generalizing s with
  | nil => simp [UringBuffer.run]
  | cons op rest ih =>
    simp only [UringBuffer.run, List.count_append]
    by_cases hin : idx ∈ (UringBuffer.step s op).2
    · have hrest := runU_no_pub_of_not_inuse rest ((UringBuffer.step s op).1)
        idx (stepU_pub_sound s op idx hin).2.2
        (fun o ho => hm o (by simp [ho]))
      have hstep := stepU_count_le_one s op idx
      omega
    · have h1 : ((UringBuffer.step s op).2.count idx) = 0 :=
        List.count_eq_zero.mpr hin
      have h2 := ih ((UringBuffer.step s op).1)
        (fun o ho => hm o (by simp [ho]))
      omega

/-- Publications of the `BufferManager` semantics happen only from a
slot whose `in_use` flag was set, and leave it cleared with `ref_count`
0. -/
theorem stepB_pub_sound (s : PoolState) (op : PoolOp) (idx : Nat)
    (h : idx ∈ (BufferManager.step s op).2) :
    (s.info idx).in_use = true ∧
    (((BufferManager.step s op).1).info idx).ref_count = 0 ∧
    (((BufferManager.step s op).1).info idx).in_use = false := by
  cases op with
  | mark j fd => simp [BufferManager.step] at h
  | incRef j => simp [BufferManager.step] at h
  | decRef j =>
    simp only [BufferManager.step] at h ⊢
    unfold BufferManager.decrementRefCount at h ⊢
    dsimp only at h ⊢
    simp only [eq_self_iff_true, if_true] at h ⊢
    split_ifs at h ⊢ with h1 h2 hand
    · simp at h
    · unfold BufferManager.releaseBuffer at h ⊢
      dsimp only at h ⊢
      simp only [eq_self_iff_true, if_true] at h ⊢
      split_ifs at h ⊢ with h6 h7
      · simp at h
      · simp at h
        subst h
        refine ⟨h6, ?_, ?_⟩
        · simp
          omega
        · simp
      · simp at h
    · simp at h
    · simp at h
  | release j =>
    simp only [BufferManager.step] at h ⊢
    unfold BufferManager.releaseBuffer at h ⊢
    dsimp only at h ⊢
    split_ifs at h ⊢ with h1 h2 h3
    · simp at h
    · simp at h
    · simp at h
      subst h
      refine ⟨h2, ?_, ?_⟩
      · simp
        omega
      · simp
    · simp at h

/-- Each `BufferManager` operation publishes at most one slot. -/
theorem stepB_count_le_one (s : PoolState) (op : PoolOp) (idx : Nat) :
    ((BufferManager.step s op).2.count idx) ≤ 1 := by
  cases op with
  | mark j fd => simp [BufferManager.step]
  | incRef j => simp [BufferManager.step]
  | decRef j =>
    simp only [BufferManager.step]
    unfold BufferManager.decrementRefCount BufferManager.releaseBuffer
    dsimp only
    split_ifs <;> exact le_trans (List.count_le_length _ _) (by simp)
  | release j =>
    simp only [BufferManager.step]
    unfold BufferManager.releaseBuffer
    dsimp only
    split_ifs <;> exact le_trans (List.count_le_length _ _) (by simp)

/-- No `BufferManager` operation except a kernel acquisition of the slot
sets its `in_use` flag. -/
theorem stepB_preserves_not_inuse (s : PoolState) (op : PoolOp) (idx : Nat)
    (h : (s.info idx).in_use = false) (hm : op.marksSlot idx = false) :
    (((BufferManager.step s op).1).info idx).in_use = false := by
  cases op with
  | mark j fd =>
    have hj : ¬ j = idx := by simpa [PoolOp.marksSlot] using hm
    have hj' : ¬ idx = j := fun hh => hj hh.symm
    simp only [BufferManager.step]
    unfold BufferManager.markBufferInUse
    split_ifs
    · exact h
    · simpa [hj'] using h
  | incRef j =>
    simp only [BufferManager.step]
    unfold BufferManager.incrementRefCount
    split_ifs
    · exact h
    · by_cases hj : idx = j
      · subst hj
        simpa using h
      · simpa [hj] using h
  | decRef j =>
    simp only [BufferManager.step]
    unfold BufferManager.decrementRefCount BufferManager.releaseBuffer
    dsimp only
    split_ifs
    all_goals (
      by_cases hj : idx = j
      · subst hj
        simpa using h
      · simpa [hj] using h)
  | release j =>
    simp only [BufferManager.step]
    unfold BufferManager.releaseBuffer
    dsimp only
    split_ifs
    all_goals (
      by_cases hj : idx = j
      · subst hj
        simpa using h
      · simpa [hj] using h)

/-- A slot whose `in_use` flag is clear is never published by a
mark-free `BufferManager` operation sequence. -/
theorem runB_no_pub_of_not_inuse (ops : List PoolOp) (s : PoolState)
    (idx : Nat) (h : (s.info idx).in_use = false)
    (hm : ∀ op ∈ ops, op.marksSlot idx = false) :
    ((BufferManager.run s ops).2.count idx) = 0 := by
  induction ops generalizing s with
  | nil => simp [BufferManager.run]
  | cons op rest ih =>
    simp only [BufferManager.run, List.count_append]
    have hop := hm op (by simp)
    have h1 : ((BufferManager.step s op).2.count idx) = 0 := by
      rw [List.count_eq_zero]
      intro hmem
      rw [(stepB_pub_sound s op idx hmem).1] at h
      exact Bool.true_eq_false.mp h
    have h2 := ih ((BufferManager.step s op).1)
      (stepB_preserves_not_inuse s op idx h hop)
      (fun o ho => hm o (by simp [ho]))
    omega

/-- In a mark-free `BufferManager` operation sequence a slot is
published at most once. -/
theorem runB_count_le_one (ops : List PoolOp) (s : PoolState) (idx : Nat)
    (hm : ∀ op ∈ ops, op.marksSlot idx = false) :
    ((BufferManager.run s ops).2.count idx) ≤ 1 := by
  induction ops generalizing s with
  | nil => simp [BufferManager.run]
  | cons op rest ih =>
    simp only [BufferManager.run, List.count_append]
    by_cases hin : idx ∈ (BufferManager.step s op).2
    · have hrest := runB_no_pub_of_not_inuse rest ((BufferManager.step s op).1)
        idx (stepB_pub_sound s op idx hin).2.2
        (fun o ho => hm o (by simp [ho]))
      have hstep := stepB_count_le_one s op idx
      omega
    · have h1 : ((BufferManager.step s op).2.count idx) = 0 :=
        List.count_eq_zero.mpr hin
      have h2 := ih ((BufferManager.step s op).1)
        (fun o ho => hm o (by simp [ho]))
      omega

/-- Claim C2: in both pool variants a slot is re-published to the
kernel buffer ring only by an operation that found its `in_use` flag
set and leaves it cleared with `ref_count` 0 (so no slot is ever
returned while references remain), and over any operation sequence
containing no kernel acquisition of the slot it is re-published at most
once — hence at most once per acquisition. -/
theorem claim_C2_release_once_refzero :
    (∀ (s : PoolState) (op : PoolOp) (idx : Nat),
      idx ∈ (UringBuffer.step s op).2 →
      (s.info idx).in_use = true ∧
      (((UringBuffer.step s op).1).info idx).ref_count = 0 ∧
      (((UringBuffer.step s op).1).info idx).in_use = false) ∧
    (∀ (ops : List PoolOp) (s : PoolState) (idx : Nat),
      (∀ op ∈ ops, op.marksSlot idx = false) →
      ((UringBuffer.run s ops).2.count idx) ≤ 1) ∧
    (∀ (s : PoolState) (op : PoolOp) (idx : Nat),
      idx ∈ (BufferManager.step s op).2 →
      (s.info idx).in_use = true ∧
      (((BufferManager.step s op).1).info idx).ref_count = 0 ∧
      (((BufferManager.step s op).1).info idx).in_use = false) ∧
    (∀ (ops : List PoolOp) (s : PoolState) (idx : Nat),
      (∀ op ∈ ops, op.marksSlot idx = false) →
      ((BufferManager.run s ops).2.count idx) ≤ 1) :=
  ⟨stepU_pub_sound, runU_count_le_one, stepB_pub_sound, runB_count_le_one⟩

/-- Claim C2, witness: on the one-slot pool holding a marked slot with
one reference, the sequence decrement, release, release publishes slot 0
exactly once, and the release step satisfies the soundness conjunct. -/
theorem claim_C2_release_once_refzero_witness :
    ((UringBuffer.run
        { size := 1
          info := fun _ =>
            { in_use := true, client_fd := 1, bytes_used := 5,
              total_uses := 1, ref_count := 1 }
          clientMap := fun c => if c = 1 then some 0 else none }
        [PoolOp.decRef 0, PoolOp.release 0, PoolOp.release 0]).2.count 0) ≤ 1 ∧
    (livePool.info 0).in_use = true :=
  ⟨claim_C2_release_once_refzero.2.1
      [PoolOp.decRef 0, PoolOp.release 0, PoolOp.release 0]
      { size := 1
        info := fun _ =>
          { in_use := true, client_fd := 1, bytes_used := 5,
            total_uses := 1, ref_count := 1 }
        clientMap := fun c => if c = 1 then some 0 else none }
      0 (by decide),
   (claim_C2_release_once_refzero.1 livePool (PoolOp.release 0) 0
      (by decide)).1⟩

/-- `incrementRefCount` preserves the pool size. -/
theorem incRefU_size (s : PoolState) (idx : Nat) :
    (UringBuffer.incrementRefCount s idx).size = s.size := by
  unfold UringBuffer.incrementRefCount
  split_ifs <;> rfl

/-- `incNTimes` preserves the pool size. -/
theorem incNTimes_size (s : PoolState) (idx n : Nat) :
    (incNTimes s idx n).size = s.size := by
  induction n with
  | zero => rfl
  | succ n ih => rw [incNTimes, incRefU_size, ih]

/-- Reference count after `n` increments: addition modulo `2^32`. -/
theorem incNTimes_ref (s : PoolState) (idx n : Nat) (hidx : idx < s.size)
    (href : (s.info idx).ref_count < 2 ^ 32) :
    ((incNTimes s idx n).info idx).ref_count
      = ((s.info idx).ref_count + n) % 2 ^ 32 := by
  induction n with
  | zero =>
    exact (Nat.mod_eq_of_lt href).symm
  | succ n ih =>
    have hsz : ¬ (incNTimes s idx n).size ≤ idx := by
      rw [incNTimes_size]
      omega
    rw [incNTimes]
    unfold UringBuffer.incrementRefCount
    rw [if_neg hsz]
    simp only [eq_self_iff_true, if_true]
    rw [ih, Nat.mod_add_mod, Nat.add_assoc]

/-- Projecting the targets out of one-frame-per-recipient pairs gives
the recipient list back. -/
theorem map_fst_pairs (cs : List Nat) (m : ChatMessage) :
    ((cs.map fun fd => (fd, m)).map Prod.fst) = cs := by
  induction cs with
  | nil => rfl
  | cons a l ih => simp [ih]

/-- With a sendable length (at most 512 bytes) the broadcast send loop
issues one submission per listed recipient, in order, and leaves the
pool untouched. -/
theorem sendLoop_le512 (pool : PoolState) (ty : Nat) (payload : List Nat)
    (len idx : Nat) (cs : List Nat) (hlen : len ≤ 512) :
    sendLoop pool ty payload len idx cs
      = (pool, cs.map fun fd => (fd, mkChatMessage ty payload len)) := by
  induction cs generalizing pool with
  | nil => rfl
  | cons fd rest ih =>
    have hc : ¬ (0 < len ∧ 512 < len) := by omega
    rw [sendLoop, sendMessage, if_neg hc]
    dsimp only
    rw [ih pool]
    rfl

set_option maxRecDepth 8192 in
/-- Claim C1, counterexample: clients 1 and 2 are the members of session
0 (k = 2); client 1 sends CHAT "hi".  The full pipeline issues 2 send
submissions, not k − 1 = 1, and the sender (client 1) does receive a
copy of its own message. -/
theorem claim_C1_counterexample :
    ((handleChatMessage twoClientReg livePool 1 chatHi 0).2.map Prod.fst
      = [1, 2]) ∧
    ¬ ((handleChatMessage twoClientReg livePool 1 chatHi 0).2.length = 1) ∧
    1 ∈ (handleChatMessage twoClientReg livePool 1 chatHi 0).2.map Prod.fst := by
  refine ⟨?_, by decide, by decide⟩
  decide

/-- Claim C1, amended: for a CHAT broadcast into a session with k
members, `IOUring::broadcastToSession` issues exactly k send
submissions, one to each member in order — the sender included, since
the `exclude_fd` argument is ignored — after incrementing the source
buffer's reference count k times. -/
theorem claim_C1_broadcast_includes_sender (sm : SMState) (pool : PoolState)
    (sid : Int) (ty : Nat) (payload : List Nat) (len idx : Nat) (ex : Int)
    (hne : SessionManager.getSessionClients sm sid ≠ [])
    (hlen : len ≤ 512) (hidx : idx < pool.size)
    (href : (pool.info idx).ref_count < 2 ^ 32) :
    ((broadcastToSession sm pool sid ty payload len idx ex).2.map Prod.fst
      = SessionManager.getSessionClients sm sid) ∧
    ((broadcastToSession sm pool sid ty payload len idx ex).2.length
      = (SessionManager.getSessionClients sm sid).length) ∧
    (UringBuffer.getRefCount
        (broadcastToSession sm pool sid ty payload len idx ex).1 idx
      = ((pool.info idx).ref_count
          + (SessionManager.getSessionClients sm sid).length) % 2 ^ 32) := by
  unfold broadcastToSession
  rw [if_neg hne, sendLoop_le512 _ _ _ _ _ _ hlen]
  refine ⟨?_, by simp, ?_⟩
  · exact map_fst_pairs _ _
  · have hidx' : idx < (incNTimes pool idx
        (SessionManager.getSessionClients sm sid).length).size := by
      rw [incNTimes_size]
      exact hidx
    unfold UringBuffer.getRefCount
    rw [if_pos hidx']
    exact incNTimes_ref pool idx _ hidx href

/-- Claim C1, witness: the amended theorem evaluated on session 0 with
members 1 and 2, payload "hi", slot 0: both members (the sender
included) get a send and the reference count rises by 2. -/
theorem claim_C1_broadcast_includes_sender_witness :
    ((broadcastToSession twoClientReg livePool 0 SERVER_CHAT [104, 105] 2 0
        1).2.map Prod.fst = SessionManager.getSessionClients twoClientReg 0) ∧
    ((broadcastToSession twoClientReg livePool 0 SERVER_CHAT [104, 105] 2 0
        1).2.length = (SessionManager.getSessionClients twoClientReg 0).length) ∧
    (UringBuffer.getRefCount
        (broadcastToSession twoClientReg livePool 0 SERVER_CHAT [104, 105] 2 0
          1).1 0
      = ((livePool.info 0).ref_count
          + (SessionManager.getSessionClients twoClientReg 0).length)
          % 2 ^ 32) :=
  claim_C1_broadcast_includes_sender twoClientReg livePool 0 SERVER_CHAT
    [104, 105] 2 0 1 (by decide) (by decide) (by decide) (by decide)

set_option maxRecDepth 8192 in
/-- Claim C7: the sanitizer keeps exactly the bytes that are printable
ASCII (0x20..0x7E), HT, LF, CR, or have the high bit set; it preserves
their order (the output is a sublist of the input); a frame whose
sanitised payload is empty is dropped with one reference decrement and
no sends; and the spec's concrete example — payload bytes
`"a\x01b\x02c"` of length 5 — is broadcast as `"abc"` of length 3. -/
theorem claim_C7_sanitizer_keeps_printable :
    (∀ b, b < 256 → (keepChatByte b = true ↔
      ((32 ≤ b ∧ b ≤ 126) ∨ b = 9 ∨ b = 10 ∨ b = 13 ∨ 128 ≤ b))) ∧
    (∀ msg : ChatMessage, (sanitizeChat msg).Sublist (msg.data.take msg.length)) ∧
    (∀ (sm : SMState) (pool : PoolState) (fd : Nat) (msg : ChatMessage)
        (idx : Nat), sanitizeChat msg = [] →
      handleChatMessage sm pool fd msg idx
        = (UringBuffer.decrementRefCount pool idx, [])) ∧
    (sanitizeChat chatExample = [97, 98, 99] ∧
     ((handleChatMessage twoClientReg livePool 1 chatExample 0).2.map
        fun s => (s.1, s.2.type, s.2.length, s.2.data.take 3))
       = [(1, SERVER_CHAT, 3, [97, 98, 99]),
          (2, SERVER_CHAT, 3, [97, 98, 99])]) := by
  refine ⟨by decide, ?_, ?_, by decide, by decide⟩
  · intro msg
    exact List.filter_sublist _
  · intro sm pool fd msg idx h
    unfold handleChatMessage
    cases hs : SessionManager.getSession sm fd with
    | none => rfl
    | some sid =>
      dsimp only
      split_ifs <;> rfl

/-- Claim C7, witness: the byte-set characterisation evaluated at byte
0x01 (dropped) and byte 0x41 (kept), and the drop-on-empty conclusion
evaluated on an all-control-bytes frame. -/
theorem claim_C7_sanitizer_keeps_printable_witness :
    (keepChatByte 1 = true ↔
      ((32 ≤ 1 ∧ 1 ≤ 126) ∨ 1 = 9 ∨ 1 = 10 ∨ 1 = 13 ∨ 128 ≤ 1)) ∧
    (keepChatByte 65 = true ↔
      ((32 ≤ 65 ∧ 65 ≤ 126) ∨ 65 = 9 ∨ 65 = 10 ∨ 65 = 13 ∨ 128 ≤ 65)) ∧
    handleChatMessage twoClientReg livePool 1
        { type := CLIENT_CHAT, length := 2,
          data := [1, 2] ++ List.replicate 510 0 } 0
      = (UringBuffer.decrementRefCount livePool 0, []) :=
  ⟨claim_C7_sanitizer_keeps_printable.1 1 (by decide),
   claim_C7_sanitizer_keeps_printable.1 65 (by decide),
   claim_C7_sanitizer_keeps_printable.2.2.1 twoClientReg livePool 1
     { type := CLIENT_CHAT, length := 2,
       data := [1, 2] ++ List.replicate 510 0 } 0 (by decide)⟩

/-- The reversed-digit list of a number below `10^k` has at most `k`
digits. -/
theorem natDigitsRev_length_le (k : Nat) :
    ∀ n, n < 10 ^ k → (natDigitsRev n).length ≤ k := by
  induction k with
  | zero =>
    intro n h
    have h0 : n = 0 := by omega
    subst h0
    rw [natDigitsRev]
    simp
  | succ k ih =>
    intro n h
    rw [natDigitsRev]
    split_ifs with h0
    · simp
    · simp only [List.length_cons]
      have hdiv : n / 10 < 10 ^ k := by
        rw [pow_succ] at h
        exact Nat.div_lt_of_lt_mul (by omega)
      have := ih (n / 10) hdiv
      omega

/-- Decimal rendering of a number below `10^10` takes at most 10
bytes. -/
theorem natAscii_length_le (n : Nat) (h : n < 10 ^ 10) :
    (natAscii n).length ≤ 10 := by
  unfold natAscii
  split_ifs with h0
  · simp
  · rw [List.length_reverse]
    exact natDigitsRev_length_le 10 n h

/-- Decimal rendering of an `int32_t` takes at most 11 bytes. -/
theorem intToAscii_length_le (i : Int) (h1 : -(2 ^ 31) ≤ i)
    (h2 : i < 2 ^ 31) : (intToAscii i).length ≤ 11 := by
  unfold intToAscii
  split_ifs with hneg
  · rw [List.length_cons]
    have hlt : i.natAbs < 10 ^ 10 := by omega
    have := natAscii_length_le i.natAbs hlt
    omega
  · have hlt : i.toNat < 10 ^ 10 := by omega
    have := natAscii_length_le i.toNat hlt
    omega

/-- A session id read from a JOIN payload is a genuine `int32_t`
value. -/
theorem readSessionId_bounds (d : List Nat) :
    -(2 ^ 31) ≤ readSessionId d ∧ readSessionId d < 2 ^ 31 := by
  unfold readSessionId natToInt32
  split_ifs with h <;> constructor <;> omega

/-- The frame built by `sendMessage` carries the requested tag, the
requested length, and the payload in its first `len` data bytes. -/
theorem mkChatMessage_spec (ty : Nat) (payload : List Nat) (len : Nat)
    (hlen : len ≤ 512) (hpl : payload.length = len) :
    (mkChatMessage ty payload len).type = ty ∧
    (mkChatMessage ty payload len).length = len ∧
    (mkChatMessage ty payload len).data.take len = payload := by
  unfold mkChatMessage
  refine ⟨rfl, ?_, ?_⟩
  · exact Nat.mod_eq_of_lt (by omega)
  · have hmin : min len 512 = len := by omega
    rw [hmin]
    have htake : payload.take len = payload := by
      rw [← hpl]
      exact List.take_length payload
    rw [htake]
    exact List.take_left' hpl

set_option maxRecDepth 8192 in
/-- Claim C6, counterexample: a fresh client 7 joins the known session
0.  The server's two sends are a NOTIFICATION (tag 0x04) of length 16
and an ACK (tag 0x01) of length 29 whose payload is
`Successfully joined session 0` — not, as the claim states, an ACK
whose payload is exactly `joined session:0` of length 15. -/
theorem claim_C6_counterexample :
    ((handleJoinSession emptyReg livePool 7 joinZero 0).2.2.map
        fun s => (s.1, s.2.type, s.2.length))
      = [(7, SERVER_NOTIFICATION, 16), (7, SERVER_ACK, 29)] ∧
    ((handleJoinSession emptyReg livePool 7 joinZero 0).2.2.getD 1
        (0, mkChatMessage 0 [] 0)).2.data.take 29
      = ascii "Successfully joined session 0" ∧
    ¬ ((handleJoinSession emptyReg livePool 7 joinZero 0).2.2.getD 1
        (0, mkChatMessage 0 [] 0)).2.length = 15 ∧
    ¬ ((handleJoinSession emptyReg livePool 7 joinZero 0).2.2.getD 1
        (0, mkChatMessage 0 [] 0)).2.data.take 16
      = ascii "joined session:0" := by
  refine ⟨by decide, by decide, by decide, by decide⟩

/-- Claim C6, amended: for every JOIN frame with payload length at
least 4 from a client in no session, naming a known session, the
handler emits exactly two frames to the joining client: first the
NOTIFICATION (tag 0x04) from `Session::addClient` whose payload is
`joined session:<id>`, then the ACK (tag 0x01) whose payload is
`Successfully joined session <id>` (length 29 for session id 0); the
pool is untouched. -/
theorem claim_C6_join_ack_text (sm : SMState) (pool : PoolState) (fd : Nat)
    (msg : ChatMessage) (idx : Nat)
    (hlen : 4 ≤ msg.length)
    (hfree : lookupFd sm.client_sessions fd = none)
    (hknown : (lookupSid sm.sessions (readSessionId msg.data)).isSome
      = true) :
    (handleJoinSession sm pool fd msg idx).2.1 = pool ∧
    (handleJoinSession sm pool fd msg idx).2.2
      = [(fd, mkChatMessage SERVER_NOTIFICATION
            (joinNotifPayload (readSessionId msg.data))
            (joinNotifPayload (readSessionId msg.data)).length),
         (fd, mkChatMessage SERVER_ACK
            (joinAckPayload (readSessionId msg.data))
            (joinAckPayload (readSessionId msg.data)).length)] ∧
    (mkChatMessage SERVER_ACK (joinAckPayload (readSessionId msg.data))
        (joinAckPayload (readSessionId msg.data)).length).type
      = SERVER_ACK ∧
    (mkChatMessage SERVER_ACK (joinAckPayload (readSessionId msg.data))
        (joinAckPayload (readSessionId msg.data)).length).length
      = (joinAckPayload (readSessionId msg.data)).length ∧
    (mkChatMessage SERVER_ACK (joinAckPayload (readSessionId msg.data))
        (joinAckPayload (readSessionId msg.data)).length).data.take
        (joinAckPayload (readSessionId msg.data)).length
      = joinAckPayload (readSessionId msg.data) ∧
    (mkChatMessage SERVER_NOTIFICATION
        (joinNotifPayload (readSessionId msg.data))
        (joinNotifPayload (readSessionId msg.data)).length).data.take
        (joinNotifPayload (readSessionId msg.data)).length
      = joinNotifPayload (readSessionId msg.data) := by
  have hb := readSessionId_bounds msg.data
  have hack : (joinAckPayload (readSessionId msg.data)).length ≤ 512 := by
    unfold joinAckPayload
    rw [List.length_append]
    have h28 : (ascii "Successfully joined session ").length = 28 := by
      decide
    have h11 := intToAscii_length_le _ hb.1 hb.2
    omega
  have hnotif : (joinNotifPayload (readSessionId msg.data)).length ≤ 512 := by
    unfold joinNotifPayload
    rw [List.length_append]
    have h15 : (ascii "joined session:").length = 15 := by decide
    have h11 := intToAscii_length_le _ hb.1 hb.2
    omega
  have h4 : ¬ msg.length < 4 := by omega
  refine ⟨?_, ?_, ?_, ?_, ?_, ?_⟩
  · unfold handleJoinSession
    rw [if_neg h4]
    unfold SessionManager.joinSession
    rw [hfree]
    dsimp only
    rw [if_neg (by simp), if_pos hknown]
    dsimp only
    have hc : ¬ (0 < (joinAckPayload (readSessionId msg.data)).length ∧
        512 < (joinAckPayload (readSessionId msg.data)).length) := by omega
    rw [sendMessage, if_neg hc]
  · unfold handleJoinSession
    rw [if_neg h4]
    unfold SessionManager.joinSession
    rw [hfree]
    dsimp only
    rw [if_neg (by simp), if_pos hknown]
    dsimp only
    have hc : ¬ (0 < (joinAckPayload (readSessionId msg.data)).length ∧
        512 < (joinAckPayload (readSessionId msg.data)).length) := by omega
    rw [sendMessage, if_neg hc]
    rfl
  · rfl
  · exact (mkChatMessage_spec _ _ _ hack rfl).2.1
  · exact (mkChatMessage_spec _ _ _ hack rfl).2.2
  · exact (mkChatMessage_spec _ _ _ hnotif rfl).2.2

/-- Claim C6, witness: the amended theorem evaluated on the empty
registry, client 7 joining session 0 with the all-zero JOIN payload. -/
theorem claim_C6_join_ack_text_witness :
    (handleJoinSession emptyReg livePool 7 joinZero 0).2.2
      = [(7, mkChatMessage SERVER_NOTIFICATION
            (joinNotifPayload (readSessionId joinZero.data))
            (joinNotifPayload (readSessionId joinZero.data)).length),
         (7, mkChatMessage SERVER_ACK
            (joinAckPayload (readSessionId joinZero.data))
            (joinAckPayload (readSessionId joinZero.data)).length)] ∧
    (mkChatMessage SERVER_ACK (joinAckPayload (readSessionId joinZero.data))
        (joinAckPayload (readSessionId joinZero.data)).length).data.take
        (joinAckPayload (readSessionId joinZero.data)).length
      = joinAckPayload (readSessionId joinZero.data) :=
  ⟨(claim_C6_join_ack_text emptyReg livePool 7 joinZero 0 (by decide) rfl
      (by decide)).2.1,
   (claim_C6_join_ack_text emptyReg livePool 7 joinZero 0 (by decide) rfl
      (by decide)).2.2.2.2.1⟩

/-- Claim C8: decoding the 8-byte `user_data` written by
`IOUring::setContext` returns the original (client fd, operation tag,
buffer index) triple for every `int32_t` fd and `uint16_t` index, and
the dispatch switch on the decoded tag byte selects the encoded
operation; the switch rejects exactly the bytes outside the four known
operation values. -/
theorem claim_C8_context_roundtrip :
    (∀ (prior : List Nat) (ty : OperationType) (fd : Int) (idx : Nat),
      -(2 ^ 31) ≤ fd → fd < 2 ^ 31 → idx < 2 ^ 16 →
      getContext (setContext prior ty fd idx)
        = { client_fd := fd, op_byte := ty.toByte, buffer_idx := idx } ∧
      dispatchOpByte (getContext (setContext prior ty fd idx)).op_byte
        = some ty) ∧
    (∀ b : Nat, dispatchOpByte b = none ↔
      (b ≠ 1 ∧ b ≠ 2 ∧ b ≠ 3 ∧ b ≠ 4)) := by
  constructor
  · intro prior ty fd idx h1 h2 h3
    have hfd : getContext (setContext prior ty fd idx)
        = { client_fd := fd, op_byte := ty.toByte, buffer_idx := idx } := by
      unfold setContext getContext
      dsimp only [List.getD, List.get?, Option.getD]
      have hu : int32ToNat fd < 2 ^ 32 := by
        unfold int32ToNat
        omega
      have hrec : int32ToNat fd % 2 ^ 8
          + 2 ^ 8 * (int32ToNat fd / 2 ^ 8 % 2 ^ 8)
          + 2 ^ 16 * (int32ToNat fd / 2 ^ 16 % 2 ^ 8)
          + 2 ^ 24 * (int32ToNat fd / 2 ^ 24 % 2 ^ 8) = int32ToNat fd := by
        omega
      have hback : natToInt32 (int32ToNat fd) = fd := by
        unfold natToInt32 int32ToNat
        have hm0 : (0 : Int) ≤ fd % 2 ^ 32 := Int.emod_nonneg fd (by norm_num)
        have hm1 : fd % 2 ^ 32 < 2 ^ 32 := Int.emod_lt_of_pos fd (by norm_num)
        split_ifs with hlt
        · omega
        · omega
      have hidx : idx % 2 ^ 8 + 2 ^ 8 * (idx / 2 ^ 8 % 2 ^ 8) = idx := by
        omega
      simp only [Operation.mk.injEq]
      refine ⟨?_, trivial, hidx⟩
      rw [hrec, hback]
    refine ⟨hfd, ?_⟩
    rw [hfd]
    cases ty <;> rfl
  · intro b
    unfold dispatchOpByte
    split_ifs <;> simp_all

/-- Claim C8, witness: the roundtrip evaluated at fd −1 (the value the
accept submission uses), operation WRITE, buffer index 513, with a
stale byte 42 in the top `user_data` position, and the rejection
conjunct evaluated at tag byte 9. -/
theorem claim_C8_context_roundtrip_witness :
    getContext (setContext [9, 9, 9, 9, 9, 9, 9, 42] OperationType.WRITE
        (-1) 513)
      = { client_fd := -1, op_byte := OperationType.WRITE.toByte,
          buffer_idx := 513 } ∧
    (dispatchOpByte 9 = none ↔ (9 ≠ 1 ∧ 9 ≠ 2 ∧ 9 ≠ 3 ∧ 9 ≠ 4)) :=
  ⟨(claim_C8_context_roundtrip.1 [9, 9, 9, 9, 9, 9, 9, 42]
      OperationType.WRITE (-1) 513 (by norm_num) (by norm_num)
      (by norm_num)).1,
   claim_C8_context_roundtrip.2 9⟩

/-- Claim C10, witness: the amended theorem evaluated on the registry
with client 1 alone in session 0: after removal the id is gone and a
free client 3 joining it gets the unknown-session error. -/
theorem claim_C10_last_member_erases_session_witness :
    lookupSid (SessionManager.removeSession pairReg 1).sessions 0 = none ∧
    (SessionManager.joinSession
        (applyRegs (SessionManager.removeSession pairReg 1) []) 3 0).2
      = some "Invalid session ID" ∧
    SessionManager.removeSession (SessionManager.removeSession pairReg 1) 1
      = SessionManager.removeSession pairReg 1 :=
  ⟨(claim_C10_last_member_erases_session pairReg 1 0 (by decide) (by decide)
      rfl rfl).1,
   ((claim_C10_last_member_erases_session pairReg 1 0 (by decide) (by decide)
      rfl rfl).2.1 [] 3).2.2 rfl,
   (claim_C10_last_member_erases_session pairReg 1 0 (by decide) (by decide)
      rfl rfl).2.2⟩

/-- Claim C4, counterexample: on a fresh one-slot pool the kernel hands
slot 0 to client 5; `UringBuffer::markBufferInUse` (the variant invoked
by `IOUring::handleRead`) does mark the slot in use but leaves its
`ref_count` at 0, not 1 as the claim states. -/
theorem claim_C4_counterexample :
    UringBuffer.isBufferInUse (UringBuffer.markBufferInUse freshPool 0 5) 0
      = true ∧
    UringBuffer.getRefCount (UringBuffer.markBufferInUse freshPool 0 5) 0
      ≠ 1 := by
  constructor
  · rfl
  · decide

/-- Claim C4, amended: for every in-range slot, `markBufferInUse` sets
the `in_use` flag, records the owning client (also in the
client-to-slot map), and increments `total_uses`; the `BufferManager`
variant additionally sets `ref_count` to exactly 1, while the
`UringBuffer` variant (the one on the `IOUring::handleRead` path)
leaves `ref_count` unchanged. -/
theorem claim_C4_mark_sets_metadata (s : PoolState) (idx fd : Nat)
    (h : idx < s.size) :
    ((UringBuffer.markBufferInUse s idx fd).info idx).in_use = true ∧
    ((UringBuffer.markBufferInUse s idx fd).info idx).client_fd = fd ∧
    ((UringBuffer.markBufferInUse s idx fd).info idx).total_uses
      = ((s.info idx).total_uses + 1) % 2 ^ 64 ∧
    ((UringBuffer.markBufferInUse s idx fd).info idx).ref_count
      = (s.info idx).ref_count ∧
    UringBuffer.findClientBuffer (UringBuffer.markBufferInUse s idx fd) fd
      = idx ∧
    ((BufferManager.markBufferInUse s idx fd).info idx).in_use = true ∧
    ((BufferManager.markBufferInUse s idx fd).info idx).client_fd = fd ∧
    ((BufferManager.markBufferInUse s idx fd).info idx).total_uses
      = ((s.info idx).total_uses + 1) % 2 ^ 64 ∧
    ((BufferManager.markBufferInUse s idx fd).info idx).ref_count = 1 ∧
    BufferManager.findClientBuffer (BufferManager.markBufferInUse s idx fd) fd
      = idx := by
  have h' : ¬ s.size ≤ idx := Nat.not_le.mpr h
  simp [UringBuffer.markBufferInUse, BufferManager.markBufferInUse,
    UringBuffer.findClientBuffer, BufferManager.findClientBuffer, h']

/-- Claim C4, witness: the amended theorem evaluated on the fresh
one-slot pool, slot 0, client 5. -/
theorem claim_C4_mark_sets_metadata_witness :
    ((UringBuffer.markBufferInUse freshPool 0 5).info 0).ref_count
      = (freshPool.info 0).ref_count ∧
    ((BufferManager.markBufferInUse freshPool 0 5).info 0).ref_count = 1 :=
  ⟨(claim_C4_mark_sets_metadata freshPool 0 5 (by decide)).2.2.2.1,
   (claim_C4_mark_sets_metadata freshPool 0 5 (by decide)).2.2.2.2.2.2.2.2.1⟩

/-- Claim C5: the LEAVE wire frame (tag `0x12`, payload length 0, the
format the spec prescribes and `ChatClient::leaveSession` emits) is
rejected by the empty-length check of `IOUring::handleRead` and never
reaches the LEAVE handler, so the client is not removed from its
session. -/
theorem claim_C5_leave_frame_rejected :
    handleReadValidate leaveFrame = ReadAction.rejectEmpty ∧
    ¬ handleReadValidate leaveFrame = ReadAction.dispatchLeave := by
  constructor
  · rfl
  · decide

/-- Claim C9: every pool operation taking a slot index is total: called
with an index at or beyond the pool size it leaves the state untouched
(and publishes nothing to the ring), and the query operations return
their defaults (`false` or 0); `findClientBuffer` returns `UINT16_MAX`
for a client with no slot.  Both pool variants. -/
theorem claim_C9_out_of_range_is_noop :
    (∀ (s : PoolState) (idx fd : Nat), s.size ≤ idx →
      UringBuffer.markBufferInUse s idx fd = s ∧
      UringBuffer.releaseBuffer s idx = (s, []) ∧
      UringBuffer.incrementRefCount s idx = s ∧
      UringBuffer.decrementRefCount s idx = s ∧
      UringBuffer.isBufferInUse s idx = false ∧
      UringBuffer.getBufferClient s idx = 0 ∧
      UringBuffer.getBufferBytesUsed s idx = 0 ∧
      UringBuffer.getRefCount s idx = 0 ∧
      BufferManager.markBufferInUse s idx fd = s ∧
      BufferManager.releaseBuffer s idx = (s, []) ∧
      BufferManager.incrementRefCount s idx = s ∧
      BufferManager.decrementRefCount s idx = (s, []) ∧
      BufferManager.isBufferInUse s idx = false ∧
      BufferManager.getBufferClient s idx = 0 ∧
      BufferManager.getBufferBytesUsed s idx = 0 ∧
      BufferManager.getRefCount s idx = 0) ∧
    (∀ (s : PoolState) (fd : Nat), s.clientMap fd = none →
      UringBuffer.findClientBuffer s fd = 65535 ∧
      BufferManager.findClientBuffer s fd = 65535) := by
  constructor
  · intro s idx fd h
    have h' : ¬ idx < s.size := Nat.not_lt.mpr h
    simp [UringBuffer.markBufferInUse, UringBuffer.releaseBuffer,
      UringBuffer.incrementRefCount, UringBuffer.decrementRefCount,
      UringBuffer.isBufferInUse, UringBuffer.getBufferClient,
      UringBuffer.getBufferBytesUsed, UringBuffer.getRefCount,
      BufferManager.markBufferInUse, BufferManager.releaseBuffer,
      BufferManager.incrementRefCount, BufferManager.decrementRefCount,
      BufferManager.isBufferInUse, BufferManager.getBufferClient,
      BufferManager.getBufferBytesUsed, BufferManager.getRefCount, h, h']
  · intro s fd h
    simp [UringBuffer.findClientBuffer, BufferManager.findClientBuffer, h]

/-- Claim C9, witness: the out-of-range behaviour evaluated on the
one-slot pool at index 5 and on a client with no slot. -/
theorem claim_C9_out_of_range_is_noop_witness :
    UringBuffer.decrementRefCount freshPool 5 = freshPool ∧
    UringBuffer.getRefCount freshPool 5 = 0 ∧
    UringBuffer.findClientBuffer freshPool 9 = 65535 :=
  ⟨(claim_C9_out_of_range_is_noop.1 freshPool 5 3 (by decide)).2.2.2.1,
   (claim_C9_out_of_range_is_noop.1 freshPool 5 3
      (by decide)).2.2.2.2.2.2.2.1,
   (claim_C9_out_of_range_is_noop.2 freshPool 9 rfl).1⟩

end TcpChat
